import Mathlib

/-!
Verification of the CryptoLytica UI API-client layer.

This file shallowly embeds the two API client implementations of the
repository — `BaseApiClient` (src/shared/services/base_client.py) and
`CryptoLyticaClient` (src/api/client.py) — and proves or refutes the
specification's claims about URL joining, headers, HTTP error handling,
and the WebSocket channel-multiplexing state machine.

Modelling conventions:
* HTTP responses are inputs `HttpResponse` carrying the status code, the
  raw body text, and the result of attempting to JSON-parse the body
  (`jsonBody = none` means `json.loads`/`response.json()` raises
  `JSONDecodeError` on this body).
* Python exceptions become `Except`/`Option` error values.
* A WebSocket callback is modelled by its identity (`cbId`) plus whether
  calling it raises an exception (`raises`); dispatching returns the
  ordered list of callback ids actually invoked.
* Physical sockets are numbered by a freshness counter; `liveSockets`
  holds every socket that was created (its `run_forever` thread started)
  and not yet closed; `openedSockets` holds every socket whose `on_open`
  event has fired.
-/

/-- Minimal JSON value type, covering what `json.loads` returns. -/
inductive Json where
  | null : Json
  | bool (b : Bool) : Json
  | num (n : Int) : Json
  | str (s : String) : Json
  | arr (xs : List Json) : Json
  | obj (fields : List (String × Json)) : Json

/-- `d.get(key)` on a parsed JSON object: first value bound to `key`. -/
def objGet : List (String × Json) → String → Option Json
  | [], _ => none
  | (k, v) :: rest, key => if k = key then some v else objGet rest key

/-- A WebSocket callback, abstracted to its identity and to whether
calling it raises an exception. -/
structure Callback where
  cbId : Nat
  raises : Bool
deriving DecidableEq

/-- Control messages the client sends over the socket
(`{type: "auth"|"subscribe"|"unsubscribe", ...}`). -/
inductive OutMsg where
  | auth (api_key : String) : OutMsg
  | subscribe (channel : String) : OutMsg
  | unsub (channel : String) : OutMsg
deriving DecidableEq

/-- Python exceptions that can arise inside the receive-loop handler. -/
inductive PyExn where
  | jsonDecodeError : PyExn
  | attributeError : PyExn
  | callbackRaise (cbId : Nat) : PyExn
deriving DecidableEq

/-- The channel-callback registry `self.ws_callbacks`: a Python dict from
channel name to list of callbacks, modelled as an insertion-ordered
association list with unique keys. -/
abbrev Registry := List (String × List Callback)

/-- Registering a callback as `subscribe_channel` does
(base_client.py:259-261): create the channel's list if needed, then
append the callback at the end. -/
def registryInsert : Registry → String → Callback → Registry
  | [], ch, cb => [(ch, [cb])]
  | (c, l) :: rest, ch, cb =>
    if c = ch then (c, l ++ [cb]) :: rest
    else (c, l) :: registryInsert rest ch cb

/-- Removing a channel's entry from the registry (`del d[ch]`). -/
def registryRemove : Registry → String → Registry
  | [], _ => []
  | (c, l) :: rest, ch =>
    if c = ch then registryRemove rest ch
    else (c, l) :: registryRemove rest ch

/-- `ch in d` / `d[ch]` on the registry. -/
def lookupChannel : Registry → String → Option (List Callback)
  | [], _ => none
  | (c, l) :: rest, ch => if c = ch then some l else lookupChannel rest ch

/-- `s.lstrip('/')`: drop every leading slash. -/
def lstrip_slashes (s : String) : String :=
  ⟨s.data.dropWhile (· == '/')⟩

/-- `s.rstrip('/')`: drop every trailing slash. -/
def rstrip_slashes (s : String) : String :=
  ⟨(s.data.reverse.dropWhile (· == '/')).reverse⟩

/-- Split a URL at the first `://`, returning the scheme and the rest. -/
def findSchemeSep : List Char → Option (List Char × List Char)
  | [] => none
  | ':' :: '/' :: '/' :: rest => some ([], rest)
  | c :: rest =>
    match findSchemeSep rest with
    | none => none
    | some (pre, post) => some (c :: pre, post)

/-- `urllib.parse.urljoin(base, ref)` restricted to the inputs this
client produces: an absolute `scheme://authority/path` base and a
path-only reference (no scheme, no authority, no query/fragment, no dot
segments).  Per RFC 3986 §5.3 (which `urljoin` implements): an empty
reference keeps the base; a reference starting with `/` replaces the
whole base path; otherwise the reference replaces everything after the
last `/` of the base path (an empty base path counts as `/`). -/
def pythonUrljoin (base ref : String) : String :=
  if ref.data = [] then base
  else
    match findSchemeSep base.data with
    | none => ref
    | some (scheme, rest) =>
      let auth := rest.takeWhile (· != '/')
      let path := rest.dropWhile (· != '/')
      let pre := scheme ++ [':', '/', '/'] ++ auth
      match ref.data with
      | '/' :: _ => ⟨pre ++ ref.data⟩
      | _ =>
        let dir := (path.reverse.dropWhile (· != '/')).reverse
        let dir2 := if dir = [] then ['/'] else dir
        ⟨pre ++ dir2 ++ ref.data⟩

/-- The join operation as the specification's words describe it (exactly
one slash at the join point, slashes on either operand normalized away).
Written from the spec, only to be compared with the code's URL builders. -/
def spec_described_join (base endpoint : String) : String :=
  rstrip_slashes base ++ "/" ++ lstrip_slashes endpoint

/-- An HTTP response as the client observes it: status code, raw body
text, and the result of JSON-parsing the body (`none` when
`response.json()` would raise `JSONDecodeError`). -/
structure HttpResponse where
  statusCode : Nat
  text : String
  jsonBody : Option Json

/-- `requests` exceptions relevant to the embedded code paths: `HTTPError`
(raised by `raise_for_status`, carrying the response's status code and
body) and `JSONDecodeError` (raised by `response.json()`, carrying the
raw body); both are subclasses of `RequestException`. -/
inductive RequestsError where
  | httpError (statusCode : Nat) (text : String) : RequestsError
  | jsonDecodeError (text : String) : RequestsError
deriving DecidableEq

/-- `response.raise_for_status()`: raises `HTTPError` exactly for client
(4xx) and server (5xx) error status codes. -/
def raise_for_status (r : HttpResponse) : Except RequestsError Unit :=
  if 400 ≤ r.statusCode ∧ r.statusCode < 600 then
    Except.error (RequestsError.httpError r.statusCode r.text)
  else
    Except.ok ()

/-- Abridged `str(e)` for a `requests` exception (the claims do not
depend on the exact human-readable message text). -/
def str_of_requests_error : RequestsError → String
  | RequestsError.httpError code _ => toString code ++ " Error"
  | RequestsError.jsonDecodeError _ => "JSON decode error"

/-- `BaseApiClient._handle_response` (base_client.py:57-79):
`raise_for_status()`, then `{}` for 204, then `response.json()`, and on a
JSON parse failure return the dict
`{"error": "응답 형식 오류", "content": response.text}` (the exception is
caught and logged, and this dict is returned as a normal value). -/
def BaseApiClient.handle_response (r : HttpResponse) : Except RequestsError Json :=
  match raise_for_status r with
  | Except.error e => Except.error e
  | Except.ok _ =>
    if r.statusCode = 204 then
      Except.ok (Json.obj [])
    else
      match r.jsonBody with
      | some v => Except.ok v
      | none =>
        Except.ok (Json.obj
          [("error", Json.str "응답 형식 오류"), ("content", Json.str r.text)])

/-- `BaseApiClient.get` (base_client.py:81-103): builds the URL with
`urljoin(self.base_url, endpoint)` (the constructor stores `base_url`
unchanged, base_client.py:24) and handles the response; a
`RequestException` is logged and re-raised unchanged.  Returns the URL
requested together with the outcome.  `post`/`put`/`delete`
(base_client.py:105-175) build the URL identically. -/
def BaseApiClient.get (base_url endpoint : String) (r : HttpResponse) :
    String × Except RequestsError Json :=
  (pythonUrljoin base_url endpoint, BaseApiClient.handle_response r)

/-- `BaseApiClient._get_headers` (base_client.py:40-55): always
Content-Type and Accept; `X-API-Key` appended iff `self.api_key` is
truthy (nonempty). -/
def BaseApiClient.get_headers (api_key : String) : List (String × String) :=
  [("Content-Type", "application/json"), ("Accept", "application/json")] ++
    (if api_key = "" then [] else [("X-API-Key", api_key)])

/-- `CryptoLyticaClient._get_headers` (client.py:40-46): always
`Authorization: Bearer <api_key>` (even for an empty key), Content-Type
and Accept. -/
def CryptoLyticaClient.get_headers (api_key : String) : List (String × String) :=
  [("Authorization", "Bearer " ++ api_key),
   ("Content-Type", "application/json"),
   ("Accept", "application/json")]

/-- The URL built by `CryptoLyticaClient` from its constructor argument:
`__init__` stores `base_url.rstrip('/')` (client.py:32) and `_request`
builds `f"{self.base_url}/{endpoint.lstrip('/')}"` (client.py:61). -/
def CryptoLyticaClient.request_url (base_url endpoint : String) : String :=
  rstrip_slashes base_url ++ "/" ++ lstrip_slashes endpoint

/-- `CryptoLyticaClient._request` (client.py:48-77): builds the URL,
`raise_for_status()`, `response.json()`; any `RequestException` (which
includes `HTTPError` and, for `requests ≥ 2.27`, `JSONDecodeError`) is
caught and the dict `{"error": str(e)}` is returned as a normal value.
Returns the URL requested together with the outcome. -/
def CryptoLyticaClient.request (base_url endpoint : String) (r : HttpResponse) :
    String × Except RequestsError Json :=
  let url := CryptoLyticaClient.request_url base_url endpoint
  match raise_for_status r with
  | Except.error e =>
    (url, Except.ok (Json.obj [("error", Json.str (str_of_requests_error e))]))
  | Except.ok _ =>
    match r.jsonBody with
    | some v => (url, Except.ok v)
    | none =>
      (url, Except.ok (Json.obj
        [("error",
          Json.str (str_of_requests_error (RequestsError.jsonDecodeError r.text)))]))

/-- The observable state of one client instance.  Mirrors the attributes
set in `BaseApiClient.__init__` (base_client.py:24-29) and
`CryptoLyticaClient.__init__` (client.py:32-37), plus the bookkeeping
needed to observe physical sockets: `liveSockets` are the sockets whose
`run_forever` thread was started and that were not closed,
`openedSockets` are the sockets whose `on_open` event has fired, `sent`
is the log of control messages sent, and `nextSocketId` supplies fresh
socket identities. -/
structure ClientState where
  base_url : String
  api_key : String
  ws_url : String
  ws : Option Nat
  globalCallback : Option Callback
  ws_callbacks : Registry
  liveSockets : List Nat
  openedSockets : List Nat
  sent : List OutMsg
  nextSocketId : Nat

/-- `BaseApiClient.__init__` (base_client.py:15-29): stores the three
configuration strings (`base_url` unchanged), `ws = None`, empty
callback registry. -/
def BaseApiClient.init (base_url api_key ws_url : String) : ClientState :=
  { base_url := base_url
    api_key := api_key
    ws_url := ws_url
    ws := none
    globalCallback := none
    ws_callbacks := []
    liveSockets := []
    openedSockets := []
    sent := []
    nextSocketId := 0 }

/-- `CryptoLyticaClient.__init__` (client.py:23-38): identical except
that `base_url.rstrip('/')` is stored. -/
def CryptoLyticaClient.init (base_url api_key ws_url : String) : ClientState :=
  { BaseApiClient.init base_url api_key ws_url with
      base_url := rstrip_slashes base_url }

/-- `BaseApiClient.connect_websocket` (base_client.py:177-242); the body
of `CryptoLyticaClient.connect_websocket` (client.py:498-563) is
identical.  If `ws_url` is falsy, log and return `False`.  Otherwise
unconditionally create a new `WebSocketApp` (overwriting `self.ws`
without closing any existing socket), remember the connect-time global
`callback` (captured by the new socket's `on_message` closure), start
the `run_forever` background thread, and return `True` immediately —
nothing is sent and no open event is awaited (the auth message is sent
only later, by the `on_open` handler). -/
def BaseApiClient.connect_websocket (s : ClientState) (callback : Option Callback) :
    ClientState × Bool :=
  if s.ws_url = "" then (s, false)
  else
    let sid := s.nextSocketId
    ({ s with
        ws := some sid
        globalCallback := callback
        liveSockets := s.liveSockets ++ [sid]
        nextSocketId := sid + 1 }, true)

/-- The `on_open` handler (base_client.py:215-222): fired by the socket
library when socket `sid` completes its handshake; sends
`{type: "auth", api_key}` unconditionally. -/
def BaseApiClient.on_open (s : ClientState) (sid : Nat) : ClientState :=
  { s with
      sent := s.sent ++ [OutMsg.auth s.api_key]
      openedSockets := s.openedSockets ++ [sid] }

/-- `BaseApiClient.subscribe_channel` (base_client.py:244-270); the body
of `CryptoLyticaClient.subscribe_channel` (client.py:565-591) is
identical.  Returns `False` when no socket handle exists; otherwise
registers the callback (appending to the channel's list, creating it if
needed) and sends `{type: "subscribe", channel}`. -/
def BaseApiClient.subscribe_channel (s : ClientState) (channel : String) (cb : Callback) :
    ClientState × Bool :=
  match s.ws with
  | none => (s, false)
  | some _ =>
    ({ s with
        ws_callbacks := registryInsert s.ws_callbacks channel cb
        sent := s.sent ++ [OutMsg.subscribe channel] }, true)

/-- `BaseApiClient.disconnect_websocket` (base_client.py:272-283); the
body of `CryptoLyticaClient.disconnect_websocket` (client.py:593-604) is
identical.  If a socket handle exists, close that socket, clear the
handle and return `True`; otherwise return `False`.  Nothing else is
touched. -/
def BaseApiClient.disconnect_websocket (s : ClientState) : ClientState × Bool :=
  match s.ws with
  | none => (s, false)
  | some sid =>
    ({ s with
        ws := none
        liveSockets := s.liveSockets.erase sid }, true)

/-- Modelled from the spec: neither `BaseApiClient` nor
`CryptoLyticaClient` (nor any other file under src/) defines an
`unsubscribe` operation — the source offers only
`connect_websocket`/`subscribe_channel`/`disconnect_websocket`.
Modelled from spec §4.2: `unsubscribe(channel_name)` removes the
channel's callback list, sends `{type: "unsubscribe", channel}`, is an
idempotent no-op when the channel has no registered callbacks, and
signals `False` when not currently connected. -/
def unsubscribe (s : ClientState) (channel : String) : ClientState × Bool :=
  match s.ws with
  | none => (s, false)
  | some _ =>
    ({ s with
        ws_callbacks := registryRemove s.ws_callbacks channel
        sent := s.sent ++ [OutMsg.unsub channel] }, true)

/-- Calling the callbacks of one channel in order
(`for cb in self.ws_callbacks[channel]: cb(data)`,
base_client.py:202-203): each callback is invoked in registration order
until one raises; the raised exception propagates out of the loop. -/
def runCallbacks : List Callback → List Nat × Option PyExn
  | [] => ([], none)
  | c :: rest =>
    if c.raises then ([c.cbId], some (PyExn.callbackRaise c.cbId))
    else
      let r := runCallbacks rest
      (c.cbId :: r.1, r.2)

/-- The `try:` body of the `on_message` handler (base_client.py:192-203;
client.py:513-524 is identical).  `raw = none` models a message body on
which `json.loads` raises `JSONDecodeError`.  On a parsed non-object,
`data.get("channel", "default")` raises `AttributeError`.  Otherwise the
connect-time global callback is called first, then the callbacks of the
channel selected by the message's `"channel"` field (default
`"default"`); a non-string channel value matches no registry key.
Returns the ids invoked, in order, and the exception (if any) escaping
the body. -/
def on_message_body (callback : Option Callback) (reg : Registry) (raw : Option Json) :
    List Nat × Option PyExn :=
  match raw with
  | none => ([], some PyExn.jsonDecodeError)
  | some data =>
    match data with
    | Json.obj fields =>
      let channel := (objGet fields "channel").getD (Json.str "default")
      let g :=
        match callback with
        | none => (([] : List Nat), (none : Option PyExn))
        | some c =>
          if c.raises then ([c.cbId], some (PyExn.callbackRaise c.cbId))
          else ([c.cbId], none)
      match g.2 with
      | some e => (g.1, some e)
      | none =>
        match channel with
        | Json.str ch =>
          match lookupChannel reg ch with
          | some cbs =>
            let r := runCallbacks cbs
            (g.1 ++ r.1, r.2)
          | none => (g.1, none)
        | _ => (g.1, none)
    | _ => ([], some PyExn.attributeError)

/-- Outcome of dispatching one inbound message: which callback ids were
invoked (in order) and whether an exception escaped the handler back
into the socket library's receive loop. -/
structure DispatchResult where
  invoked : List Nat
  raisedOut : Bool
deriving DecidableEq

/-- The full `on_message` handler (base_client.py:191-207; client.py:512-528
is identical): the body runs under
`except json.JSONDecodeError: log` / `except Exception as e: log`, so
every exception the body raises is caught and only logged. -/
def on_message (callback : Option Callback) (reg : Registry) (raw : Option Json) :
    DispatchResult :=
  match on_message_body callback reg raw with
  | (inv, none) => { invoked := inv, raisedOut := false }
  | (inv, some PyExn.jsonDecodeError) => { invoked := inv, raisedOut := false }
  | (inv, some PyExn.attributeError) => { invoked := inv, raisedOut := false }
  | (inv, some (PyExn.callbackRaise _)) => { invoked := inv, raisedOut := false }

/-- One receive-loop step at the client level: the handler closure reads
the connect-time callback and the registry from the client; it mutates
neither the registry nor the socket handle (base_client.py:191-207). -/
def ws_on_message (s : ClientState) (raw : Option Json) : ClientState × DispatchResult :=
  (s, on_message s.globalCallback s.ws_callbacks raw)

/-- An inbound message `{"channel": ch}` addressed to channel `ch`. -/
def chanMsg (ch : String) : Json :=
  Json.obj [("channel", Json.str ch)]

/-- `true` when the optional connect-time callback does not raise. -/
def benignOpt : Option Callback → Bool
  | none => true
  | some c => !c.raises

/-- `true` when no callback in the list raises. -/
def benignList (l : List Callback) : Bool :=
  l.all (fun c => !c.raises)

/-- The ids contributed by the optional connect-time callback. -/
def optIds : Option Callback → List Nat
  | none => []
  | some c => [c.cbId]

/-- The 404 response of the spec's own example: status 404 with body
`{"detail": "not found"}` (which parses as JSON). -/
def resp404 : HttpResponse :=
  { statusCode := 404
    text := "\x7b\"detail\": \"not found\"\x7d"
    jsonBody := some (Json.obj [("detail", Json.str "not found")]) }

/-- A 200 response whose body is not valid JSON. -/
def respBadJson : HttpResponse :=
  { statusCode := 200, text := "not json", jsonBody := none }

/-- A 200 response with the empty-object body. -/
def respOk : HttpResponse :=
  { statusCode := 200, text := "\x7b\x7d", jsonBody := some (Json.obj []) }

/-- A freshly constructed client with a WebSocket URL configured. -/
def wsClient0 : ClientState := BaseApiClient.init "http://host" "key" "ws://host/ws"

/-- A connected client on which `"c"` was subscribed twice: first with a
callback that raises, then with one that does not. -/
def C6state : ClientState :=
  (BaseApiClient.subscribe_channel
    (BaseApiClient.subscribe_channel
      (BaseApiClient.connect_websocket wsClient0 none).1
      "c" { cbId := 1, raises := true }).1
    "c" { cbId := 2, raises := false }).1

/-- The client `wsClient0` right after a successful `connect_websocket`
(no channels subscribed yet). -/
def connClient : ClientState :=
  (BaseApiClient.connect_websocket wsClient0 none).1

/-- A connect-time global callback that does not raise. -/
def cbG : Callback := { cbId := 9, raises := false }

/-- A per-channel callback that does not raise. -/
def cbA : Callback := { cbId := 1, raises := false }

/-- A second per-channel callback that does not raise. -/
def cbB : Callback := { cbId := 2, raises := false }

/-- A registry with one benign callback registered on channel `"x"`. -/
def regX : Registry := [("x", [{ cbId := 5, raises := false }])]

/-! ## Helper lemmas -/

/-- The first element surviving `dropWhile p` does not satisfy `p`. -/
theorem head?_dropWhile_false {p : Char → Bool} :
    ∀ {l : List Char} {c : Char}, (l.dropWhile p).head? = some c → p c = false := by
  intro l
  induction l with
  | nil => intro c h; simp [List.dropWhile] at h
  | cons a t ih =>
    intro c h
    by_cases hp : p a = true
    · simp only [List.dropWhile, hp] at h
      exact ih h
    · have hp' : p a = false := by simpa using hp
      simp only [List.dropWhile, hp'] at h
      simp only [List.head?] at h
      cases h
      exact hp'

/-- `rstrip('/')` absorbs a trailing slash. -/
theorem rstrip_slashes_append_slash (s : String) :
    rstrip_slashes (s ++ "/") = rstrip_slashes s := by
  unfold rstrip_slashes
  have hdata : (s ++ "/").data = s.data ++ ['/'] := String.data_append s "/"
  rw [hdata]
  congr 1
  simp [List.dropWhile]

/-- `lstrip('/')` absorbs a leading slash. -/
theorem lstrip_slashes_cons_slash (s : String) :
    lstrip_slashes ("/" ++ s) = lstrip_slashes s := by
  unfold lstrip_slashes
  have hdata : ("/" ++ s).data = '/' :: s.data := String.data_append "/" s
  rw [hdata]
  congr 1

/-- After `rstrip('/')` the string does not end in a slash. -/
theorem rstrip_slashes_no_trailing (s : String) :
    (rstrip_slashes s).data.getLast? ≠ some '/' := by
  intro h
  unfold rstrip_slashes at h
  rw [show ((⟨(s.data.reverse.dropWhile (· == '/')).reverse⟩ : String)).data
        = (s.data.reverse.dropWhile (· == '/')).reverse from rfl,
      List.getLast?_reverse] at h
  have := head?_dropWhile_false h
  simp at this

/-- After `lstrip('/')` the string does not start with a slash. -/
theorem lstrip_slashes_no_leading (s : String) :
    (lstrip_slashes s).data.head? ≠ some '/' := by
  intro h
  unfold lstrip_slashes at h
  have := head?_dropWhile_false h
  simp at this

/-! ## C1: at most one physical socket per client -/

/-- Claim C1: the spec's invariant says at most one physical socket
connection exists per client instance at any time.  The code violates
it: `connect_websocket` never checks for or closes an existing socket
(base_client.py:224-242), so a second call while connected overwrites
`self.ws` with a fresh `WebSocketApp` while the first socket's
`run_forever` thread keeps running.  This theorem evaluates the model at
the failing input: after `connect_websocket(); connect_websocket()` both
calls returned `True` and two live sockets exist. -/
theorem C1_second_connect_leaks_socket :
    ((BaseApiClient.connect_websocket wsClient0 none).2 = true) ∧
    ((BaseApiClient.connect_websocket
        (BaseApiClient.connect_websocket wsClient0 none).1 none).2 = true) ∧
    ((BaseApiClient.connect_websocket
        (BaseApiClient.connect_websocket wsClient0 none).1 none).1.liveSockets = [0, 1]) ∧
    ((BaseApiClient.connect_websocket
        (BaseApiClient.connect_websocket wsClient0 none).1 none).1.liveSockets.length = 2) := by
  refine ⟨rfl, rfl, rfl, rfl⟩

/-! ## C2: URL joining -/

/-- Claim C2 (counterexample): `BaseApiClient` does not strip the
trailing slash at construction and builds its URL with
`urljoin(self.base_url, endpoint)` (base_client.py:24, 92).  For
`base_url = "http://host/api"` and `endpoint = "v1/status"`, `urljoin`
replaces the base path's last segment, yielding
`"http://host/v1/status"` — not the claimed single-slash join
`"http://host/api/v1/status"`. -/
theorem C2_counterexample :
    ((BaseApiClient.get "http://host/api" "v1/status" respOk).1
        = "http://host/v1/status") ∧
    ((BaseApiClient.get "http://host/api" "v1/status" respOk).1
        ≠ spec_described_join "http://host/api" "v1/status") := by
  refine ⟨by decide, by decide⟩

/-- Claim C2 (amended): the claimed join law holds for
`CryptoLyticaClient._request` (client.py:32, 61): the stored base URL
has its trailing slashes stripped at construction, the endpoint's
leading slashes are stripped at request time, the result has exactly one
slash at the join point (the normalized base does not end in `/`, the
normalized endpoint does not start with `/`), and the result is
invariant under adding a trailing slash to `base_url` or a leading slash
to `endpoint`.  `BaseApiClient` instead feeds the un-normalized
`base_url` to `urljoin`, which can drop the base path's last segment
(see the counterexample). -/
theorem C2_crypto_join_normalized (base endpoint : String) :
    (CryptoLyticaClient.request_url (base ++ "/") endpoint
        = CryptoLyticaClient.request_url base endpoint) ∧
    (CryptoLyticaClient.request_url base ("/" ++ endpoint)
        = CryptoLyticaClient.request_url base endpoint) ∧
    ((CryptoLyticaClient.request base endpoint respOk).1
        = spec_described_join base endpoint) ∧
    ((rstrip_slashes base).data.getLast? ≠ some '/') ∧
    ((lstrip_slashes endpoint).data.head? ≠ some '/') := by
  refine ⟨?_, ?_, rfl, rstrip_slashes_no_trailing base,
    lstrip_slashes_no_leading endpoint⟩
  · unfold CryptoLyticaClient.request_url
    rw [rstrip_slashes_append_slash]
  · unfold CryptoLyticaClient.request_url
    rw [lstrip_slashes_cons_slash]

/-- Claim C2 (witness): the amended join law evaluated at
`base_url = "http://host/"` and `endpoint = "/api/v1"`. -/
theorem C2_crypto_join_normalized_witness :
    (CryptoLyticaClient.request_url ("http://host/" ++ "/") "/api/v1"
        = CryptoLyticaClient.request_url "http://host/" "/api/v1") ∧
    (CryptoLyticaClient.request_url "http://host/" ("/" ++ "/api/v1")
        = CryptoLyticaClient.request_url "http://host/" "/api/v1") ∧
    ((CryptoLyticaClient.request "http://host/" "/api/v1" respOk).1
        = spec_described_join "http://host/" "/api/v1") ∧
    ((rstrip_slashes "http://host/").data.getLast? ≠ some '/') ∧
    ((lstrip_slashes "/api/v1").data.head? ≠ some '/') :=
  C2_crypto_join_normalized "http://host/" "/api/v1"

/-! ## C3: HTTP status ≥ 400 -/

/-- Claim C3 (counterexample): at the spec's own example input — a 404
response with body `{"detail": "not found"}` —
`CryptoLyticaClient._request` does not fail: its
`except RequestException` clause (client.py:74-77) swallows the
`HTTPError` raised by `raise_for_status` and returns the dict
`{"error": str(e)}` as a normal value. -/
theorem C3_counterexample :
    (CryptoLyticaClient.request "http://host" "api/v1/x" resp404).2 =
      Except.ok (Json.obj [("error", Json.str "404 Error")]) := by
  rfl

/-- Claim C3 (amended): for every response with status 400–599,
`BaseApiClient`'s request operations fail with the typed
`requests.HTTPError` carrying the status code and the response body, and
do not retry (the handler re-raises the error unchanged,
base_client.py:101-103); `CryptoLyticaClient._request`, by contrast,
catches the error and returns `{"error": str(e)}` as a normal value. -/
theorem C3_base_http_error (r : HttpResponse) (h4 : 400 ≤ r.statusCode)
    (h6 : r.statusCode < 600) (base endpoint : String) :
    (BaseApiClient.get base endpoint r).2
      = Except.error (RequestsError.httpError r.statusCode r.text) := by
  have hr : raise_for_status r
      = Except.error (RequestsError.httpError r.statusCode r.text) := by
    unfold raise_for_status
    exact if_pos ⟨h4, h6⟩
  unfold BaseApiClient.get BaseApiClient.handle_response
  rw [hr]

/-- Claim C3 (witness): the amended theorem evaluated at the 404
response of the spec's example. -/
theorem C3_base_http_error_witness :
    400 ≤ resp404.statusCode ∧ resp404.statusCode < 600 ∧
    (BaseApiClient.get "http://host" "api/v1/x" resp404).2
      = Except.error (RequestsError.httpError resp404.statusCode resp404.text) :=
  ⟨by decide, by decide,
    C3_base_http_error resp404 (by decide) (by decide) "http://host" "api/v1/x"⟩

/-! ## C4: malformed JSON in a 2xx response -/

/-- Claim C4 (counterexample): for the 200 response with the non-JSON
body `"not json"`, `BaseApiClient._handle_response` does not fail with a
typed `DecodeError`: it catches the `JSONDecodeError` internally
(base_client.py:77-79) and returns the dict
`{"error": "응답 형식 오류", "content": response.text}` as a normal
value. -/
theorem C4_counterexample :
    BaseApiClient.handle_response respBadJson =
      Except.ok (Json.obj
        [("error", Json.str "응답 형식 오류"), ("content", Json.str "not json")]) := by
  rfl

/-- Claim C4 (amended): for every 2xx response other than 204 whose body
is not valid JSON, `BaseApiClient._handle_response` catches the parse
exception (it neither propagates it nor fails with a typed error) and
returns the normal dict `{"error": "응답 형식 오류", "content": raw_body}`
carrying the raw body. -/
theorem C4_invalid_json_error_dict (r : HttpResponse) (h2 : 200 ≤ r.statusCode)
    (h3 : r.statusCode < 300) (h204 : r.statusCode ≠ 204) (hj : r.jsonBody = none) :
    BaseApiClient.handle_response r =
      Except.ok (Json.obj
        [("error", Json.str "응답 형식 오류"), ("content", Json.str r.text)]) := by
  have hr : raise_for_status r = Except.ok () := by
    unfold raise_for_status
    exact if_neg (by omega)
  unfold BaseApiClient.handle_response
  rw [hr]
  simp [h204, hj]

/-- Claim C4 (witness): the amended theorem evaluated at the 200
response with body `"not json"`. -/
theorem C4_invalid_json_error_dict_witness :
    200 ≤ respBadJson.statusCode ∧ respBadJson.statusCode < 300 ∧
    respBadJson.statusCode ≠ 204 ∧ respBadJson.jsonBody = none ∧
    BaseApiClient.handle_response respBadJson =
      Except.ok (Json.obj
        [("error", Json.str "응답 형식 오류"),
         ("content", Json.str respBadJson.text)]) :=
  ⟨by decide, by decide, by decide, rfl,
    C4_invalid_json_error_dict respBadJson (by decide) (by decide) (by decide) rfl⟩

/-! ## C8: request headers -/

/-- Claim C8 (counterexample): `CryptoLyticaClient._get_headers`
(client.py:40-46) attaches `Authorization: Bearer ` even when the API
key is empty (not configured), so the authorization header is not
attached "if and only if an API key is configured"; the scheme is also
fixed per class (`Bearer` here, `X-API-Key` in `BaseApiClient`), not
configurable. -/
theorem C8_counterexample :
    ("Authorization", "Bearer ") ∈ CryptoLyticaClient.get_headers "" := by
  decide

/-- Claim C8 (amended): both clients always send
`Content-Type: application/json` and `Accept: application/json`;
`BaseApiClient` attaches `X-API-Key: <key>` exactly when the key is
nonempty, while `CryptoLyticaClient` always attaches
`Authorization: Bearer <key>`, even for an empty key; each class
hardcodes its one scheme. -/
theorem C8_headers (key : String) :
    (("Content-Type", "application/json") ∈ BaseApiClient.get_headers key) ∧
    (("Accept", "application/json") ∈ BaseApiClient.get_headers key) ∧
    ((("X-API-Key", key) ∈ BaseApiClient.get_headers key) ↔ key ≠ "") ∧
    (("Content-Type", "application/json") ∈ CryptoLyticaClient.get_headers key) ∧
    (("Accept", "application/json") ∈ CryptoLyticaClient.get_headers key) ∧
    (("Authorization", "Bearer " ++ key) ∈ CryptoLyticaClient.get_headers key) := by
  refine ⟨?_, ?_, ?_, ?_, ?_, ?_⟩
  · simp [BaseApiClient.get_headers]
  · simp [BaseApiClient.get_headers]
  · constructor
    · intro hmem hkey
      subst hkey
      revert hmem
      decide
    · intro hne
      have hh : BaseApiClient.get_headers key
          = [("Content-Type", "application/json"),
             ("Accept", "application/json"), ("X-API-Key", key)] := by
        unfold BaseApiClient.get_headers
        rw [if_neg hne]
        rfl
      rw [hh]
      simp
  · simp [CryptoLyticaClient.get_headers]
  · simp [CryptoLyticaClient.get_headers]
  · simp [CryptoLyticaClient.get_headers]

/-- Claim C8 (witness): the amended header description evaluated at the
key `"secret"`. -/
theorem C8_headers_witness :
    (("Content-Type", "application/json") ∈ BaseApiClient.get_headers "secret") ∧
    (("Accept", "application/json") ∈ BaseApiClient.get_headers "secret") ∧
    ((("X-API-Key", "secret") ∈ BaseApiClient.get_headers "secret") ↔ "secret" ≠ "") ∧
    (("Content-Type", "application/json") ∈ CryptoLyticaClient.get_headers "secret") ∧
    (("Accept", "application/json") ∈ CryptoLyticaClient.get_headers "secret") ∧
    (("Authorization", "Bearer " ++ "secret") ∈ CryptoLyticaClient.get_headers "secret") :=
  C8_headers "secret"

/-! ## Dispatch helper lemmas -/

/-- Inserting a callback appends it to the channel's list. -/
theorem lookupChannel_registryInsert (reg : Registry) (ch : String) (cb : Callback) :
    lookupChannel (registryInsert reg ch cb) ch
      = some ((lookupChannel reg ch).getD [] ++ [cb]) := by
  induction reg with
  | nil => simp [registryInsert, lookupChannel]
  | cons p rest ih =>
    obtain ⟨c, l⟩ := p
    by_cases hc : c = ch
    · subst hc
      simp [registryInsert, lookupChannel]
    · simp [registryInsert, lookupChannel, hc, ih]

/-- Removing a channel leaves no entry for it. -/
theorem lookupChannel_registryRemove (reg : Registry) (ch : String) :
    lookupChannel (registryRemove reg ch) ch = none := by
  induction reg with
  | nil => rfl
  | cons p rest ih =>
    obtain ⟨c, l⟩ := p
    by_cases hc : c = ch
    · subst hc
      simp [registryRemove, ih]
    · simp [registryRemove, lookupChannel, hc, ih]

/-- When no callback in the list raises, every callback runs, in order,
and no exception escapes the loop. -/
theorem runCallbacks_benign :
    ∀ (l : List Callback), benignList l = true →
      runCallbacks l = (l.map Callback.cbId, none) := by
  intro l
  induction l with
  | nil => intro _; rfl
  | cons c t ih =>
    intro h
    simp only [benignList, List.all_cons, Bool.and_eq_true, Bool.not_eq_eq_eq_not,
      Bool.not_true] at h
    obtain ⟨h1, h2⟩ := h
    simp [runCallbacks, h1, ih h2]

/-- Dispatching `{"channel": ch}` when neither the global callback nor
any callback registered on `ch` raises: the global callback runs first,
then the channel's list in registration order. -/
theorem on_message_chanMsg (g : Option Callback) (reg : Registry) (ch : String)
    (hg : benignOpt g = true)
    (hreg : benignList ((lookupChannel reg ch).getD []) = true) :
    on_message g reg (some (chanMsg ch)) =
      { invoked := optIds g ++ ((lookupChannel reg ch).getD []).map Callback.cbId,
        raisedOut := false } := by
  unfold on_message on_message_body chanMsg
  simp only [objGet, if_pos, Option.getD_some]
  cases g with
  | none =>
    cases hl : lookupChannel reg ch with
    | none => simp [hl, optIds]
    | some cbs =>
      rw [hl] at hreg
      simp only [Option.getD_some] at hreg
      simp [hl, optIds, runCallbacks_benign cbs hreg]
  | some c =>
    have hc : c.raises = false := by
      simpa [benignOpt] using hg
    cases hl : lookupChannel reg ch with
    | none => simp [hl, hc, optIds]
    | some cbs =>
      rw [hl] at hreg
      simp only [Option.getD_some] at hreg
      simp [hl, hc, optIds, runCallbacks_benign cbs hreg]

/-- No exception ever escapes the `on_message` handler: both `except`
clauses only log. -/
theorem on_message_raisedOut (g : Option Callback) (reg : Registry)
    (raw : Option Json) : (on_message g reg raw).raisedOut = false := by
  unfold on_message
  rcases h : on_message_body g reg raw with ⟨inv, _ | e⟩
  · rfl
  · cases e <;> rfl

/-! ## C9: disconnect frame -/

/-- Claim C9: `disconnect_websocket` (base_client.py:272-283) closes the
current socket (removing it from the live set) and clears the handle,
returning `True` exactly when a handle existed — and changes nothing
else: the channel-callback registry, the configuration, the sent log and
the open-event history are all left exactly as they were, so previously
registered channel subscriptions remain in memory after disconnect. -/
theorem C9_disconnect_frame (s : ClientState) :
    ((BaseApiClient.disconnect_websocket s).1.ws = none) ∧
    ((BaseApiClient.disconnect_websocket s).1.ws_callbacks = s.ws_callbacks) ∧
    ((BaseApiClient.disconnect_websocket s).1.sent = s.sent) ∧
    ((BaseApiClient.disconnect_websocket s).1.globalCallback = s.globalCallback) ∧
    ((BaseApiClient.disconnect_websocket s).1.base_url = s.base_url) ∧
    ((BaseApiClient.disconnect_websocket s).1.api_key = s.api_key) ∧
    ((BaseApiClient.disconnect_websocket s).1.ws_url = s.ws_url) ∧
    ((BaseApiClient.disconnect_websocket s).1.openedSockets = s.openedSockets) ∧
    ((BaseApiClient.disconnect_websocket s).1.nextSocketId = s.nextSocketId) ∧
    ((BaseApiClient.disconnect_websocket s).1.liveSockets =
      match s.ws with
      | some sid => s.liveSockets.erase sid
      | none => s.liveSockets) ∧
    ((BaseApiClient.disconnect_websocket s).2 = s.ws.isSome) := by
  rcases hws : s.ws with _ | sid <;>
    simp [BaseApiClient.disconnect_websocket, hws]

/-! ## C10: connect returns True before the open event -/

/-- Claim C10: when `ws_url` is configured (and constructing the
`WebSocketApp` does not raise — constructing it performs no network
operation and is modelled as never raising), `connect_websocket`
(base_client.py:224-242) returns `True` immediately after spawning the
receive thread: it sends nothing (in particular not the auth message,
which only the later `on_open` event sends) and does not wait for or
verify the socket open event, so a `True` return does not imply that the
new socket is open/Connected. -/
theorem C10_connect_true_without_open (s : ClientState) (cb : Option Callback)
    (hurl : ¬ s.ws_url = "") (hfresh : s.nextSocketId ∉ s.openedSockets) :
    ((BaseApiClient.connect_websocket s cb).2 = true) ∧
    ((BaseApiClient.connect_websocket s cb).1.sent = s.sent) ∧
    ((BaseApiClient.connect_websocket s cb).1.ws = some s.nextSocketId) ∧
    (s.nextSocketId ∉ (BaseApiClient.connect_websocket s cb).1.openedSockets) := by
  unfold BaseApiClient.connect_websocket
  rw [if_neg hurl]
  exact ⟨rfl, rfl, rfl, hfresh⟩

/-- Claim C10 (witness): evaluated on a fresh client with
`ws_url = "ws://host/ws"`. -/
theorem C10_connect_true_without_open_witness :
    (¬ wsClient0.ws_url = "") ∧ (wsClient0.nextSocketId ∉ wsClient0.openedSockets) ∧
    ((BaseApiClient.connect_websocket wsClient0 none).2 = true) ∧
    ((BaseApiClient.connect_websocket wsClient0 none).1.sent = wsClient0.sent) ∧
    ((BaseApiClient.connect_websocket wsClient0 none).1.ws
        = some wsClient0.nextSocketId) ∧
    (wsClient0.nextSocketId ∉
        (BaseApiClient.connect_websocket wsClient0 none).1.openedSockets) := by
  have h := C10_connect_true_without_open wsClient0 none (by decide) (by decide)
  exact ⟨by decide, by decide, h.1, h.2.1, h.2.2.1, h.2.2.2⟩

/-! ## C7: receive-loop safety -/

/-- Claim C7: dispatching any inbound message — in particular one whose
body is not parseable JSON (`raw = none`) — leaves the client state (the
socket handle and the callback registry) unchanged and raises no
exception out of the receive loop; an unparseable message invokes no
callback at all.  Decode failures and callback exceptions alike are
caught by the handler's `except` clauses (base_client.py:204-207) and
never terminate the loop or the connection. -/
theorem C7_receive_loop_safe (s : ClientState) (raw : Option Json) :
    ((ws_on_message s raw).1 = s) ∧
    ((ws_on_message s raw).2.raisedOut = false) ∧
    ((ws_on_message s none).2.invoked = []) :=
  ⟨rfl, on_message_raisedOut s.globalCallback s.ws_callbacks raw, rfl⟩

/-! ## C5: unsubscribe (spec-modelled) -/

/-- Claim C5 (spec-modelled): the source defines no unsubscribe
operation, so `unsubscribe` is modelled from spec §4.2 and checked
against the source's registry and dispatch code.  When connected,
`unsubscribe(ch)` succeeds (also when `ch` has no registered callbacks —
idempotent no-op), sends `{type: "unsubscribe", channel: ch}`, and
removes `ch`'s callback list, so dispatching a subsequent inbound
message on `ch` invokes zero per-channel callbacks while a registered
non-raising global callback is still invoked; when not connected it
returns `false` and changes nothing. -/
theorem C5_unsubscribe (s : ClientState) (ch : String) (g : Callback)
    (hg : g.raises = false) :
    (s.ws = none → unsubscribe s ch = (s, false)) ∧
    (s.ws.isSome = true →
      ((unsubscribe s ch).2 = true ∧
        (unsubscribe s ch).1.sent = s.sent ++ [OutMsg.unsub ch] ∧
        lookupChannel (unsubscribe s ch).1.ws_callbacks ch = none ∧
        (on_message (some g) (unsubscribe s ch).1.ws_callbacks
            (some (chanMsg ch))).invoked = [g.cbId])) := by
  constructor
  · intro hws
    unfold unsubscribe
    rw [hws]
  · intro hws
    obtain ⟨sid, hsid⟩ := Option.isSome_iff_exists.mp hws
    have hu : unsubscribe s ch =
        ({ s with
            ws_callbacks := registryRemove s.ws_callbacks ch
            sent := s.sent ++ [OutMsg.unsub ch] }, true) := by
      unfold unsubscribe
      rw [hsid]
    rw [hu]
    have hb : benignList
        ((lookupChannel (registryRemove s.ws_callbacks ch) ch).getD []) = true := by
      rw [lookupChannel_registryRemove]
      rfl
    refine ⟨rfl, rfl, lookupChannel_registryRemove s.ws_callbacks ch, ?_⟩
    rw [on_message_chanMsg (some g) _ ch (by simp [benignOpt, hg]) hb]
    rw [lookupChannel_registryRemove]
    simp [optIds]

/-- Claim C5 (witness): the spec-modelled unsubscribe evaluated on a
connected client, channel `"market"` (never subscribed — the no-op
case), and the non-raising global callback `cbG`. -/
theorem C5_unsubscribe_witness :
    (connClient.ws = none → unsubscribe connClient "market" = (connClient, false)) ∧
    (connClient.ws.isSome = true →
      ((unsubscribe connClient "market").2 = true ∧
        (unsubscribe connClient "market").1.sent
          = connClient.sent ++ [OutMsg.unsub "market"] ∧
        lookupChannel (unsubscribe connClient "market").1.ws_callbacks "market"
          = none ∧
        (on_message (some cbG) (unsubscribe connClient "market").1.ws_callbacks
            (some (chanMsg "market"))).invoked = [cbG.cbId])) :=
  C5_unsubscribe connClient "market" cbG rfl

/-! ## C6: per-channel callbacks in registration order -/

/-- Claim C6 (counterexample): on a connected client, channel `"c"` was
subscribed twice — first with callback 1, which raises, then with
callback 2.  Dispatching one inbound message on `"c"` invokes callback 1
and then aborts: the `except Exception` clause wrapping the whole
dispatch (base_client.py:206-207) catches the exception, so callback 2
is invoked zero times — not "each of the two callbacks exactly once". -/
theorem C6_counterexample :
    (ws_on_message C6state (some (chanMsg "c"))).2
      = { invoked := [1], raisedOut := false } := by
  decide

/-- Claim C6 (amended): provided the global callback and the callbacks
registered on the channel do not raise, all of the channel's callbacks
are invoked on every inbound message for that channel, in registration
order, after the connect-time global callback; in particular two
distinct non-raising callbacks registered by two `subscribe_channel`
calls on a fresh channel are each invoked exactly once, in registration
order.  A callback that raises is caught and logged but suppresses the
remaining callbacks for that message (see the counterexample). -/
theorem C6_callbacks_in_registration_order
    (s : ClientState) (g : Option Callback) (reg : Registry) (ch : String)
    (c1 c2 : Callback) (sid : Nat)
    (hws : s.ws = some sid)
    (hfresh : lookupChannel s.ws_callbacks ch = none)
    (hg : benignOpt g = true)
    (h1 : c1.raises = false) (h2 : c2.raises = false)
    (hne : c1.cbId ≠ c2.cbId)
    (hg1 : c1.cbId ∉ optIds g) (hg2 : c2.cbId ∉ optIds g)
    (hreg : benignList ((lookupChannel reg ch).getD []) = true) :
    ((on_message g
        ((BaseApiClient.subscribe_channel
            ((BaseApiClient.subscribe_channel s ch c1).1) ch c2).1).ws_callbacks
        (some (chanMsg ch))).invoked = optIds g ++ [c1.cbId, c2.cbId]) ∧
    ((on_message g
        ((BaseApiClient.subscribe_channel
            ((BaseApiClient.subscribe_channel s ch c1).1) ch c2).1).ws_callbacks
        (some (chanMsg ch))).invoked.count c1.cbId = 1) ∧
    ((on_message g
        ((BaseApiClient.subscribe_channel
            ((BaseApiClient.subscribe_channel s ch c1).1) ch c2).1).ws_callbacks
        (some (chanMsg ch))).invoked.count c2.cbId = 1) ∧
    ((on_message g reg (some (chanMsg ch))).invoked
      = optIds g ++ ((lookupChannel reg ch).getD []).map Callback.cbId) := by
  have hcb2 : ((BaseApiClient.subscribe_channel
      ((BaseApiClient.subscribe_channel s ch c1).1) ch c2).1).ws_callbacks
      = registryInsert (registryInsert s.ws_callbacks ch c1) ch c2 := by
    simp [BaseApiClient.subscribe_channel, hws]
  have hlook : lookupChannel
      (registryInsert (registryInsert s.ws_callbacks ch c1) ch c2) ch
      = some [c1, c2] := by
    rw [lookupChannel_registryInsert, lookupChannel_registryInsert, hfresh]
    rfl
  have hb : benignList ((lookupChannel
      (registryInsert (registryInsert s.ws_callbacks ch c1) ch c2) ch).getD [])
      = true := by
    rw [hlook]
    simp [benignList, h1, h2]
  have hinv : (on_message g
      ((BaseApiClient.subscribe_channel
          ((BaseApiClient.subscribe_channel s ch c1).1) ch c2).1).ws_callbacks
      (some (chanMsg ch))).invoked = optIds g ++ [c1.cbId, c2.cbId] := by
    rw [hcb2, on_message_chanMsg g _ ch hg hb]
    rw [hlook]
    rfl
  refine ⟨hinv, ?_, ?_, ?_⟩
  · rw [hinv, List.count_append, List.count_eq_zero.mpr hg1]
    simp [List.count_cons, hne]
  · rw [hinv, List.count_append, List.count_eq_zero.mpr hg2]
    simp [List.count_cons, hne.symm]
  · rw [on_message_chanMsg g reg ch hg hreg]

/-- Claim C6 (witness): the amended dispatch-order property evaluated on
a connected client, channel `"x"`, callbacks `cbA` then `cbB`, global
callback `cbG`, and the registry `regX`. -/
theorem C6_callbacks_in_registration_order_witness :
    ((on_message (some cbG)
        ((BaseApiClient.subscribe_channel
            ((BaseApiClient.subscribe_channel connClient "x" cbA).1) "x" cbB).1).ws_callbacks
        (some (chanMsg "x"))).invoked = optIds (some cbG) ++ [cbA.cbId, cbB.cbId]) ∧
    ((on_message (some cbG)
        ((BaseApiClient.subscribe_channel
            ((BaseApiClient.subscribe_channel connClient "x" cbA).1) "x" cbB).1).ws_callbacks
        (some (chanMsg "x"))).invoked.count cbA.cbId = 1) ∧
    ((on_message (some cbG)
        ((BaseApiClient.subscribe_channel
            ((BaseApiClient.subscribe_channel connClient "x" cbA).1) "x" cbB).1).ws_callbacks
        (some (chanMsg "x"))).invoked.count cbB.cbId = 1) ∧
    ((on_message (some cbG) regX (some (chanMsg "x"))).invoked
      = optIds (some cbG) ++ ((lookupChannel regX "x").getD []).map Callback.cbId) :=
  C6_callbacks_in_registration_order connClient (some cbG) regX "x" cbA cbB 0
    (by decide) (by decide) (by decide) (by decide) (by decide) (by decide)
    (by decide) (by decide) (by decide)
